import Mathlib

/-
Verification development for the fake-database-generator repository.

The generation engine lives in `models.py` (class `Database`).  This file gives
a shallow embedding of that code:

* schema / config documents become Lean structures (`TableSchema`,
  `FieldSchema`, `Config`);
* the three randomness sources of the Python code are made explicit:
  the `random` module and the `Faker` provider are seeded from
  `config["random_seed"]` in `Database.__init__` and are modelled as the
  `SeededEnv` part of `Env`, while `scipy.stats.truncnorm.rvs` draws from the
  process-global numpy RNG, which the code never seeds, modelled as the
  separate `Env.numpy` stream;
* the SQLite store is modelled as a list of insert batches (`Entry`);
  `SELECT col, ... FROM t` is projection over the batches inserted into `t`
  so far, with a column that was never part of an INSERT reading as NULL
  (exactly what SQLite returns for an unpopulated column).  DDL/DML execution
  itself is an external collaborator and is abstracted as always accepting,
  except for the statically malformed statements the code can build
  (a CREATE TABLE with no column definitions, an INSERT with an empty
  column list, a SELECT with an empty column list, a parameter binding of
  the wrong width), which are modelled as errors;
* Python exceptions become the `PyError` sum type and results are pairs
  `state × Option PyError`, so that the partially committed store is still
  observable after a failure, as it is in the real program.

Python floats are idealised as rationals; `scipy.stats.truncnorm.rvs` is
abstracted as the next value of the unseeded numpy stream (its distribution
is irrelevant to the claims below; the code's own `np.clip` bound enforcement
is modelled faithfully).
-/

/-- Runtime values that can appear in a generated row (Python scalars). -/
inductive Value where
  | null
  | int (n : Int)
  | rat (q : Rat)
  | str (s : String)
deriving DecidableEq

/-- A calendar date as produced by `Faker.date_between`. -/
structure Date where
  year : Nat
  month : Nat
  day : Nat
deriving DecidableEq

/-- `{"references": "table(column)"}` of a single-column foreign key field. -/
structure ForeignKey where
  references : String
deriving DecidableEq

/-- One entry of a table's `composite_primary_keys` list. -/
structure CompositeKey where
  fields : List String
deriving DecidableEq

/-- One entry of a table's `composite_foreign_keys` list. -/
structure CompositeFK where
  fields : List String
  references : String
deriving DecidableEq

/-- A field of the schema document.  `type` is required by the code
(`field_info.get("type").lower()` would crash on a missing type, so the
wire contract makes it mandatory); every other key is optional, with key
absence modelled as `none` / `false`. -/
structure FieldSchema where
  name : String
  type : String
  primary_key : Bool := false
  unique : Bool := false
  not_null : Bool := false
  fake_data : Option String := none
  mean : Option Rat := none
  stddev : Option Rat := none
  min : Option Rat := none
  max : Option Rat := none
  foreign_key : Option ForeignKey := none
deriving DecidableEq

/-- A table of the schema document.  `composite_primary_keys = none` models a
schema dict without that key; `some []` models the key bound to an empty
list — `generate_fake_data` distinguishes only key presence (`"..." in t`),
while `create_tables` additionally checks truthiness. -/
structure TableSchema where
  table_name : String
  fields : List FieldSchema
  composite_primary_keys : Option (List CompositeKey) := none
  composite_foreign_keys : Option (List CompositeFK) := none
deriving DecidableEq

/-- The config document: `num_records` maps table names to row counts
(the `Database` code reads `self.config["num_records"]`, so the key itself is
mandatory); `random_seed` is optional. -/
structure Config where
  num_records : List (String × Nat)
  random_seed : Option Nat := none

/-- Python exceptions the generation code can raise. -/
inductive PyError where
  | nameError (n : String)
  | keyError (k : String)
  | indexError
  | valueError
  | operationalError
  | programmingError
deriving DecidableEq

/-- The randomness that `Database.__init__` seeds from `random_seed`:
the `random` module (`randIdx` backs `random.choice`) and the `Faker`
provider (`fakerMethods` is the set of generator names `hasattr` finds,
`fakerValue` the values delegated calls return, `fakerDate` the dates
`date_between` returns).  Two runs with the same schema, config and seed
share one and the same `SeededEnv`. -/
structure SeededEnv where
  fakerMethods : List String
  fakerValue : Nat → String → Value
  fakerDate : Nat → Date
  randIdx : Nat → Nat

/-- The full random environment: the seeded part plus the process-global
numpy RNG stream that `scipy.stats.truncnorm.rvs` draws from, which
`Database.__init__` never seeds. -/
structure Env where
  seeded : SeededEnv
  numpy : Nat → Rat

/-- Positions of the three RNG streams (one counter per underlying RNG;
`Faker` uses a single internal RNG for both `date_between` and named
generators). -/
structure GenState where
  fakerCtr : Nat
  randCtr : Nat
  numpyCtr : Nat
deriving DecidableEq

/-- ASCII lower-casing of one character (model of `str.lower`). -/
def lowerChar (c : Char) : Char :=
  if 65 ≤ c.toNat ∧ c.toNat ≤ 90 then Char.ofNat (c.toNat + 32) else c

/-- Model of Python `str.lower()`. -/
def lowerStr (s : String) : String := String.mk (s.data.map lowerChar)

/-- Split a character list at every occurrence of `c` (Python
`str.split(sep)` semantics for a one-character separator). -/
def splitChar (c : Char) : List Char → List (List Char)
  | [] => [[]]
  | x :: xs =>
    if x = c then [] :: splitChar c xs
    else
      match splitChar c xs with
      | [] => [[x]]
      | h :: t => (x :: h) :: t

/-- Model of Python `s.split(sep)` for a one-character separator. -/
def splitStr (s : String) (c : Char) : List String :=
  (splitChar c s.data).map String.mk

/-- Does `pat` occur at the head of `l`? -/
def startsList : List Char → List Char → Bool
  | [], _ => true
  | _ :: _, [] => false
  | p :: ps, x :: xs => p = x && startsList ps xs

/-- Does `pat` occur anywhere in `l`? -/
def subListAt (pat : List Char) : List Char → Bool
  | [] => pat.isEmpty
  | c :: rest => startsList pat (c :: rest) || subListAt pat rest

/-- Model of Python `pat in hay` on strings. -/
def hasSub (hay pat : String) : Bool := subListAt pat.data hay.data

/-- Model of Python `s.rstrip(")")`. -/
def rstripParen (s : String) : String :=
  String.mk ((s.data.reverse.dropWhile (fun c => c = ')')).reverse)

/-- Python whitespace test for `str.strip()` (the characters that can occur
in the schema documents). -/
def isSpaceChar (c : Char) : Bool := c = ' ' || c = '\t' || c = '\n' || c = '\r'

/-- Model of Python `s.strip()`. -/
def stripStr (s : String) : String :=
  String.mk (((s.data.dropWhile isSpaceChar).reverse.dropWhile isSpaceChar).reverse)

/-- `⌊q⌋` computed on the numerator/denominator (kernel-reducible floor). -/
def ratFloorI (q : Rat) : Int := Int.fdiv q.num (q.den : Int)

/-- Python `round` (banker's rounding: ties go to the even integer),
as applied by `int(round(sample))`. -/
def pyRound (q : Rat) : Int :=
  let fl := ratFloorI q
  let r2 : Int := 2 * (q.num - fl * (q.den : Int))
  if r2 < (q.den : Int) then fl
  else if (q.den : Int) < r2 then fl + 1
  else if fl % 2 = 0 then fl else fl + 1

/-- The `NUMERIC_TYPES` set of `generate_fake_data`, also the list the
`elif field_info.get("type").lower() in [...]` membership test uses in
`generate_fake_value`. -/
def numericTypes : List String := ["int", "float", "decimal", "bigint"]

/-- The int-date test at the top of `generate_fake_value`:
`field_info.get("type").lower() == "int" and "date" in field_info.get("name", "").lower()`. -/
def isDateField (f : FieldSchema) : Bool :=
  lowerStr f.type == "int" && hasSub (lowerStr f.name) "date"

/-- The `1YYMMDD` integer encoding built by `generate_fake_int_date`'s
f-string `f"{1}{yy:02d}{mm:02d}{dd:02d}"`; for calendar dates
(`month`, `day` < 100) the zero-padded digit concatenation equals this
arithmetic form. -/
def encodeIntDate (d : Date) : Int :=
  1000000 + (Int.ofNat (d.year % 100)) * 10000 + (Int.ofNat d.month) * 100 + Int.ofNat d.day

/-- `Database.generate_fake_int_date`: sample a date via
`fake.date_between(2000-01-01, today)` (one draw from the seeded Faker
stream) and return its `1YYMMDD` encoding. -/
def generate_fake_int_date (env : Env) (s : GenState) : Int × GenState :=
  (encodeIntDate (env.seeded.fakerDate s.fakerCtr), { s with fakerCtr := s.fakerCtr + 1 })

/-- `Database.generate_fake_value`, branch for branch:
1. int-typed, date-named fields get `generate_fake_int_date`;
2. a field with a `fake_data` key delegates to the Faker method of that name
   when `hasattr` finds it, and otherwise falls through to the final
   `return None`;
3. a numeric-typed field with all of `mean`/`stddev`/`min`/`max` present
   returns `mean` (unrounded) when `stddev == 0`, and otherwise one
   `truncnorm.rvs` draw from the unseeded numpy stream, `np.clip`-ed to
   `[min, max]`, put through `int(round(.))` exactly when the raw `type`
   string (not lower-cased, as in the source) is `"int"` or `"bigint"`;
4. everything else returns `None`.
The source's `except (KeyError, ZeroDivisionError)` fallback is dead code —
`dict.get` never raises `KeyError` and the division by `std` is guarded by
`std == 0.0` — so it has no counterpart here. -/
def generate_fake_value (env : Env) (s : GenState) (f : FieldSchema) : Value × GenState :=
  if isDateField f then
    let (d, s') := generate_fake_int_date env s
    (Value.int d, s')
  else if f.fake_data.isSome then
    let g := f.fake_data.getD ""
    if env.seeded.fakerMethods.contains g then
      (env.seeded.fakerValue s.fakerCtr g, { s with fakerCtr := s.fakerCtr + 1 })
    else
      (Value.null, s)
  else if numericTypes.contains (lowerStr f.type) then
    match f.mean, f.stddev, f.min, f.max with
    | some mean, some std, some mn, some mx =>
      if std = 0 then (Value.rat mean, s)
      else
        let sample := env.numpy s.numpyCtr
        let clamped := min (max sample mn) mx
        if f.type = "int" || f.type = "bigint" then
          (Value.int (pyRound clamped), { s with numpyCtr := s.numpyCtr + 1 })
        else
          (Value.rat clamped, { s with numpyCtr := s.numpyCtr + 1 })
    | _, _, _, _ => (Value.null, s)
  else
    (Value.null, s)

/-- One committed `executemany` batch: the INSERT column list and the rows
bound to it. -/
structure Entry where
  name : String
  cols : List String
  rows : List (List Value)
deriving DecidableEq

/-- State threaded through `generate_fake_data`: the RNG positions, the
store (batches in insertion order) and the `id_references` dict. -/
structure RunState where
  gs : GenState
  store : List Entry
  idrefs : List (String × List (String × List Value))

/-- Read column `c` of a row inserted with column list `cols`; a column the
INSERT did not mention reads back as NULL. -/
def lookupCol (cols : List String) (row : List Value) (c : String) : Value :=
  match cols.indexOf? c with
  | some i => row.getD i Value.null
  | none => Value.null

/-- `SELECT cols FROM tname`: project every row inserted into `tname` so far
(a table never inserted into reads as empty, as an unpopulated SQLite table
does). -/
def storeSelect (store : List Entry) (tname : String) (cols : List String) :
    List (List Value) :=
  (store.filter (fun e => e.name == tname)).flatMap
    (fun e => e.rows.map (fun r => cols.map (lookupCol e.cols r)))

/-- `num_records` for one table: the configured count, defaulting to 10
(`self.config["num_records"].get(table_name, 10)`). -/
def getNumRecords (cfg : Config) (t : String) : Nat :=
  (List.lookup t cfg.num_records).getD 10

/-- One row of a parent table: `generate_fake_value` applied to each
insertable field in order (both branches of the source's
`if "fake_data" in field ... else ...` make the same call). -/
def parentRow (env : Env) (fields : List FieldSchema) (s : GenState) :
    List Value × GenState :=
  fields.foldl
    (fun acc f =>
      let (v, s') := generate_fake_value env acc.2 f
      (acc.1 ++ [v], s'))
    ([], s)

/-- `num_records` rows of a parent table. -/
def parentRows (env : Env) (fields : List FieldSchema) :
    Nat → GenState → List (List Value) × GenState
  | 0, s => ([], s)
  | n + 1, s =>
    let (r, s1) := parentRow env fields s
    let (rs, s2) := parentRows env fields n s1
    (r :: rs, s2)

/-- The parent-table half of `generate_fake_data`'s loop body for one table:
insertable fields are those with a `fake_data` key or a numeric type; the
batch is inserted and committed; then, when the table has fields flagged
`primary_key`, each such column is read back (`SELECT pk FROM t`) into
`id_references` (a dict assignment, so an earlier entry for the same table
name is replaced).  An INSERT whose column list is empty is a SQLite syntax
error when at least one row is bound. -/
def parentStep (env : Env) (cfg : Config) (st : RunState) (t : TableSchema) :
    RunState × Option PyError :=
  let insertable := t.fields.filter
    (fun f => f.fake_data.isSome || numericTypes.contains (lowerStr f.type))
  let cols := insertable.map (fun f => f.name)
  let n := getNumRecords cfg t.table_name
  let (rows, gs') := parentRows env insertable n st.gs
  if cols.isEmpty && n ≠ 0 then (st, some PyError.operationalError)
  else
    let store' := st.store ++ [⟨t.table_name, cols, rows⟩]
    let pk_cols := (t.fields.filter (fun f => f.primary_key)).map (fun f => f.name)
    let idrefs' :=
      if pk_cols.isEmpty then st.idrefs
      else
        (st.idrefs.filter (fun p => p.1 != t.table_name)) ++
          [(t.table_name,
            pk_cols.map (fun pk =>
              (pk, (storeSelect store' t.table_name [pk]).map
                 (fun r => r.headD Value.null))))]
    ({ gs := gs', store := store', idrefs := idrefs' }, none)

/-- Python truthiness of `field.get("fake_data")`. -/
def truthyStr : Option String → Bool
  | some s => !s.isEmpty
  | none => false

/-- The non-composite part of one child row: each insertable field either
goes through `generate_fake_value` (truthy `fake_data` or numeric type), or
is a single-column foreign key resolved by `random.choice` over
`id_references[ref_table][ref_col]` (one draw from the seeded `random`
stream), with the `"table(column)"` reference unpacked by
`ref_table, ref_col = references.split("(")` — a `ValueError` unless the
split has exactly two parts — and `ref_col = ref_col.rstrip(")")`.
A field that matches neither branch appends nothing (leaving the row
narrower than the column list). -/
def childRowFields (env : Env)
    (idrefs : List (String × List (String × List Value))) :
    List FieldSchema → List Value → GenState →
    Except PyError (List Value × GenState)
  | [], row, s => Except.ok (row, s)
  | f :: rest, row, s =>
    if truthyStr f.fake_data || numericTypes.contains (lowerStr f.type) then
      let (v, s') := generate_fake_value env s f
      childRowFields env idrefs rest (row ++ [v]) s'
    else if f.foreign_key.isSome then
      let refstr := (f.foreign_key.getD ⟨""⟩).references
      match splitStr refstr '(' with
      | [rt, rcRaw] =>
        let rc := rstripParen rcRaw
        match List.lookup rt idrefs with
        | none => Except.error (PyError.keyError rt)
        | some colvals =>
          match List.lookup rc colvals with
          | none => Except.error (PyError.keyError rc)
          | some vals =>
            if vals.isEmpty then Except.error PyError.indexError
            else
              let v := vals.getD (env.seeded.randIdx s.randCtr % vals.length) Value.null
              childRowFields env idrefs rest (row ++ [v])
                { s with randCtr := s.randCtr + 1 }
      | _ => Except.error PyError.valueError
    else
      childRowFields env idrefs rest row s

/-- The composite-FK fill of one child row: map the three components of the
drawn parent tuple onto the declared field list by the hard-coded names
`CoCode`/`SchCode`/`PlanNo`, positionally (`parent_key_cols.index(fk)`) for
any other name.  Only called with three-component tuples (the unpack
`co, sch, pl = random.choice(...)` has already succeeded), so the positional
index is always in range. -/
def hardcodedFkMap (fk_fields : List String) (co sch pl : Value) : List Value :=
  fk_fields.map (fun fk =>
    if fk = "CoCode" then co
    else if fk = "SchCode" then sch
    else if fk = "PlanNo" then pl
    else [co, sch, pl].getD (List.indexOf fk fk_fields) Value.null)

/-- `num_records` rows of a child table: the non-composite fields, then one
`random.choice` over the parent's composite key tuples (an `IndexError` when
the parent has no rows, a `ValueError` unless the tuple has exactly three
components). -/
def childRows (env : Env)
    (idrefs : List (String × List (String × List Value)))
    (insertable : List FieldSchema) (fk_fields : List String)
    (composite_keys : List (List Value)) :
    Nat → GenState → Except PyError (List (List Value) × GenState)
  | 0, s => Except.ok ([], s)
  | n + 1, s =>
    match childRowFields env idrefs insertable [] s with
    | Except.error e => Except.error e
    | Except.ok (row, s1) =>
      if composite_keys.isEmpty then Except.error PyError.indexError
      else
        let tup := composite_keys.getD
          (env.seeded.randIdx s1.randCtr % composite_keys.length) []
        let s2 := { s1 with randCtr := s1.randCtr + 1 }
        match tup with
        | [co, sch, pl] =>
          let fullRow := row ++ hardcodedFkMap fk_fields co sch pl
          match childRows env idrefs insertable fk_fields composite_keys n s2 with
          | Except.error e => Except.error e
          | Except.ok (rest, s3) => Except.ok (fullRow :: rest, s3)
        | _ => Except.error PyError.valueError

/-- The child-table half of `generate_fake_data`'s loop body for one table:
only the first `composite_foreign_keys` entry is used (an `IndexError` when
the list is empty); the parent's key tuples are fetched with
`SELECT fk_fields FROM parent` (a syntax error when the field list is
empty); insertable fields are those with a `fake_data` key, a numeric type
or a `foreign_key` key, minus the composite-FK fields themselves; the
column list is the insertable names followed by the composite-FK fields;
a row narrower than the column list is a binding error at `executemany`. -/
def childStep (env : Env) (cfg : Config) (st : RunState) (t : TableSchema) :
    RunState × Option PyError :=
  match t.composite_foreign_keys with
  | none => (st, some (PyError.keyError "composite_foreign_keys"))
  | some [] => (st, some PyError.indexError)
  | some (cfk :: _) =>
    let fk_fields := cfk.fields
    let parent_ref := stripStr ((splitStr cfk.references '(').headD "")
    if fk_fields.isEmpty then (st, some PyError.operationalError)
    else
      let composite_keys := storeSelect st.store parent_ref fk_fields
      let insertable := t.fields.filter (fun f =>
        (f.fake_data.isSome || numericTypes.contains (lowerStr f.type)
          || f.foreign_key.isSome)
        && !(fk_fields.contains f.name))
      let cols := insertable.map (fun f => f.name) ++ fk_fields
      let n := getNumRecords cfg t.table_name
      match childRows env st.idrefs insertable fk_fields composite_keys n st.gs with
      | Except.error e => (st, some e)
      | Except.ok (rows, gs') =>
        if rows.any (fun r => r.length ≠ cols.length) then
          (st, some PyError.programmingError)
        else
          ({ st with gs := gs', store := st.store ++ [⟨t.table_name, cols, rows⟩] },
            none)

/-- Run `step` over a list of tables, stopping at the first error (a raised
exception aborts `generate_fake_data`; earlier batches stay committed). -/
def runSteps (step : RunState → TableSchema → RunState × Option PyError) :
    RunState → List TableSchema → RunState × Option PyError
  | st, [] => (st, none)
  | st, t :: ts =>
    match step st t with
    | (st', none) => runSteps step st' ts
    | (st', some e) => (st', some e)

/-- The initial run state: fresh RNG positions, empty store, empty
`id_references`. -/
def initState : RunState := ⟨⟨0, 0, 0⟩, [], []⟩

/-- `Database.generate_fake_data`: the tables whose dict carries a
`composite_primary_keys` key, in schema order, then the tables whose dict
carries a `composite_foreign_keys` key, in schema order. -/
def generate_fake_data (env : Env) (schema : List TableSchema) (cfg : Config) :
    RunState × Option PyError :=
  let parents := schema.filter (fun t => t.composite_primary_keys.isSome)
  let children := schema.filter (fun t => t.composite_foreign_keys.isSome)
  match runSteps (parentStep env cfg) initState parents with
  | (st, none) => runSteps (childStep env cfg) st children
  | (st, some e) => (st, some e)

/-- `Database.create_tables`: for each table in schema order, the column
loop's first expression is `[field["name"], fld["type"]]` and the name
`fld` is not defined anywhere, so the first field of any table raises
`NameError` before that table's `cursor.execute` is reached.  A table with
an empty `fields` list gets past the loop, but the statement built for it —
`CREATE TABLE name (...)` whose parenthesised list contains no column
definitions, at most a composite `PRIMARY KEY` clause (emitted only when
the first `composite_primary_keys` entry has a truthy field list) followed
by composite `FOREIGN KEY` clauses — is not valid SQLite grammar (the
column-definition list of `CREATE TABLE` cannot be empty), so
`cursor.execute(sql)` raises `sqlite3.OperationalError`.  Either way the
first table of a non-empty schema aborts the loop: the result is the list
of DDL statements successfully executed (always empty for a non-empty
schema) plus the error that aborted the loop. -/
def create_tables : List TableSchema → List String × Option PyError
  | [] => ([], none)
  | t :: _ =>
    if t.fields.isEmpty then ([], some PyError.operationalError)
    else ([], some (PyError.nameError "fld"))

/-- `Database.__init__`: seeds the `random` module and `Faker` when
`random_seed` is present (reflected in `SeededEnv`, not here) and then
calls `create_tables`. -/
def database_init (schema : List TableSchema) (_cfg : Config) :
    List String × Option PyError :=
  create_tables schema

/-- The order in which `generate_fake_data` processes tables: every table
whose dict has a `composite_primary_keys` key, in schema order, then every
table whose dict has a `composite_foreign_keys` key, in schema order. -/
def populationOrder (schema : List TableSchema) : List String :=
  (schema.filter (fun t => t.composite_primary_keys.isSome)).map
      (fun t => t.table_name)
    ++ (schema.filter (fun t => t.composite_foreign_keys.isSome)).map
      (fun t => t.table_name)

/-- The tables a table references through its foreign keys, read the way the
generation code reads them: the part before `(` of each field-level
`foreign_key.references`, and the (stripped) part before `(` of each
`composite_foreign_keys` entry's `references`. -/
def refsTables (t : TableSchema) : List String :=
  t.fields.filterMap
      (fun f => f.foreign_key.map (fun fk => (splitStr fk.references '(').headD ""))
    ++ (t.composite_foreign_keys.getD []).map
      (fun c => stripStr ((splitStr c.references '(').headD ""))

/-- Total number of rows inserted into table `name` across the whole run. -/
def rowsInserted (store : List Entry) (name : String) : Nat :=
  ((store.filter (fun e => e.name == name)).map (fun e => e.rows.length)).sum

/-- A concrete seeded environment used by the closed theorems below
(standing for the streams some fixed `random_seed` produces): the Faker
provider knows `name`, delegated calls return `"Alice"`, `date_between`
always returns 2013-05-09, and `random.choice` always picks index 0. -/
def se0 : SeededEnv :=
  { fakerMethods := ["name"]
    fakerValue := fun _ _ => Value.str "Alice"
    fakerDate := fun _ => ⟨2013, 5, 9⟩
    randIdx := fun _ => 0 }

/-- `se0` together with a numpy stream that always returns 0. -/
def env0 : Env := { seeded := se0, numpy := fun _ => 0 }

/-- `se0` together with a numpy stream that always returns 1: the same
seeded state as `env0`, a different state of the never-seeded numpy RNG. -/
def env1 : Env := { seeded := se0, numpy := fun _ => 1 }

/-- A fresh `GenState` for theorems about single `generate_fake_value`
calls. -/
def gs0 : GenState := ⟨0, 0, 0⟩

/-- Lexicographic date comparison (used to state Faker's
`date_between(2000-01-01, today)` range guarantee). -/
def dateLEb (a b : Date) : Bool :=
  Nat.blt a.year b.year
    || (a.year == b.year
        && (Nat.blt a.month b.month || (a.month == b.month && Nat.ble a.day b.day)))

/-- A step function appends exactly one batch, named after the processed
table, when it succeeds, and leaves the state untouched when it raises. -/
def StepTracks (step : RunState → TableSchema → RunState × Option PyError) : Prop :=
  ∀ st t,
    ((step st t).2 = none →
      (step st t).1.store.map (fun e => e.name)
        = st.store.map (fun e => e.name) ++ [t.table_name]) ∧
    ((step st t).2 ≠ none → (step st t).1 = st)

/-- One parent table `T` with a float field carrying a full distribution
(`stddev ≠ 0`, so each row costs one `truncnorm.rvs` draw). -/
def tDet : TableSchema :=
  { table_name := "T"
    fields := [{ name := "x", type := "float", mean := some 0, stddev := some 1,
                 min := some (-10), max := some 10 }]
    composite_primary_keys := some [] }

/-- Config with a `random_seed`, one row for `T`. -/
def cfgDet : Config := { num_records := [("T", 1)], random_seed := some 42 }

/-- Parent table `A` whose field `x` carries a single-column foreign key
referencing table `B` — declared before `B` in the schema. -/
def tA : TableSchema :=
  { table_name := "A"
    fields := [{ name := "x", type := "int", foreign_key := some ⟨"B(id)"⟩ }]
    composite_primary_keys := some [] }

/-- Parent table `B` with a deterministic primary-key column. -/
def tB : TableSchema :=
  { table_name := "B"
    fields := [{ name := "id", type := "int", primary_key := true, mean := some 5,
                 stddev := some 0, min := some 0, max := some 9 }]
    composite_primary_keys := some [] }

/-- One row each for `A` and `B`. -/
def cfgAB : Config := { num_records := [("A", 1), ("B", 1)] }

/-- Parent table `A` referencing `B` — one half of a mutual FK cycle. -/
def tCycA : TableSchema :=
  { table_name := "A"
    fields := [{ name := "x", type := "int", foreign_key := some ⟨"B(b)"⟩ }]
    composite_primary_keys := some [] }

/-- Parent table `B` referencing `A` — the other half of the cycle. -/
def tCycB : TableSchema :=
  { table_name := "B"
    fields := [{ name := "b", type := "int", foreign_key := some ⟨"A(x)"⟩ }]
    composite_primary_keys := some [] }

/-- Parent table `P` with the three hard-coded composite-key columns, all
deterministic (`stddev = 0`): `CoCode = 1`, `SchCode = 2`, `PlanNo = 3`. -/
def tP7 : TableSchema :=
  { table_name := "P"
    fields := [{ name := "CoCode", type := "int", mean := some 1, stddev := some 0,
                 min := some 0, max := some 9 },
               { name := "SchCode", type := "int", mean := some 2, stddev := some 0,
                 min := some 0, max := some 9 },
               { name := "PlanNo", type := "int", mean := some 3, stddev := some 0,
                 min := some 0, max := some 9 }]
    composite_primary_keys := some [⟨["CoCode", "SchCode", "PlanNo"]⟩] }

/-- Child table `C` whose composite FK declares the fields in the order
`SchCode, CoCode, PlanNo` — a legal declaration order that differs from the
hard-coded `CoCode, SchCode, PlanNo` assignment. -/
def tC7 : TableSchema :=
  { table_name := "C"
    fields := []
    composite_foreign_keys := some [⟨["SchCode", "CoCode", "PlanNo"], "P"⟩] }

/-- Child table like `tC7` but declared in the hard-coded order. -/
def tC7ok : TableSchema :=
  { table_name := "C"
    fields := []
    composite_foreign_keys := some [⟨["CoCode", "SchCode", "PlanNo"], "P"⟩] }

/-- One row each for `P` and `C`. -/
def cfg7 : Config := { num_records := [("P", 1), ("C", 1)] }

/-- Parent table `P` tracking a single key value `id = 5`. -/
def tP6 : TableSchema :=
  { table_name := "P"
    fields := [{ name := "id", type := "int", primary_key := true, mean := some 5,
                 stddev := some 0, min := some 0, max := some 9 }]
    composite_primary_keys := some [] }

/-- Parent table `Q` supplying the composite key of `tC6`. -/
def tQ6 : TableSchema :=
  { table_name := "Q"
    fields := [{ name := "CoCode", type := "int", mean := some 1, stddev := some 0,
                 min := some 0, max := some 9 },
               { name := "SchCode", type := "int", mean := some 2, stddev := some 0,
                 min := some 0, max := some 9 },
               { name := "PlanNo", type := "int", mean := some 3, stddev := some 0,
                 min := some 0, max := some 9 }]
    composite_primary_keys := some [] }

/-- Child table `C` whose field `pid` is a `unique` single-column foreign
key into `P(id)`. -/
def tC6 : TableSchema :=
  { table_name := "C"
    fields := [{ name := "pid", type := "text", unique := true,
                 foreign_key := some ⟨"P(id)"⟩ }]
    composite_foreign_keys := some [⟨["CoCode", "SchCode", "PlanNo"], "Q"⟩] }

/-- `P` has a single row, `C` asks for two. -/
def cfg6 : Config := { num_records := [("P", 1), ("Q", 1), ("C", 2)] }

/-- Parent table `T` whose only field is numeric with no distribution
parameters. -/
def tT9 : TableSchema :=
  { table_name := "T"
    fields := [{ name := "x", type := "int" }]
    composite_primary_keys := some [] }

/-- One row for `T`. -/
def cfg9 : Config := { num_records := [("T", 1)] }

/-- Table `D` declaring both a composite primary key and a composite
foreign key (referencing itself), deterministic columns. -/
def tD4 : TableSchema :=
  { table_name := "D"
    fields := [{ name := "CoCode", type := "int", mean := some 1, stddev := some 0,
                 min := some 0, max := some 9 },
               { name := "SchCode", type := "int", mean := some 2, stddev := some 0,
                 min := some 0, max := some 9 },
               { name := "PlanNo", type := "int", mean := some 3, stddev := some 0,
                 min := some 0, max := some 9 }]
    composite_primary_keys := some [⟨["CoCode", "SchCode", "PlanNo"]⟩]
    composite_foreign_keys := some [⟨["CoCode", "SchCode", "PlanNo"], "D"⟩] }

/-- Two rows for `D`. -/
def cfg4 : Config := { num_records := [("D", 2)] }

/-- A table with neither a `composite_primary_keys` nor a
`composite_foreign_keys` key, with a perfectly generatable field. -/
def tPlain : TableSchema :=
  { table_name := "T"
    fields := [{ name := "x", type := "int", mean := some 5, stddev := some 0,
                 min := some 0, max := some 9 }] }

/-- Three rows requested for the `tPlain` table. -/
def cfgPlain : Config := { num_records := [("T", 3)] }

/-- A field delegating to a generator name that Faker does not provide. -/
def fldZ : FieldSchema := { name := "color", type := "text", fake_data := some "zzz" }

/-- A parent table containing only `fldZ`. -/
def tT5 : TableSchema :=
  { table_name := "T"
    fields := [fldZ]
    composite_primary_keys := some [] }

/-- An int-typed field whose name signals a date. -/
def fldDate : FieldSchema := { name := "pay_date", type := "int" }

/-- A bigint-typed field whose name signals a date. -/
def fldBigDate : FieldSchema := { name := "start_date", type := "bigint" }

/-- A table with one (any) field, for the `create_tables` crash. -/
def tF : TableSchema := { table_name := "T", fields := [{ name := "x", type := "int" }] }

/-- A table with an empty `fields` list, whose `CREATE TABLE` statement
holds no column definitions. -/
def tE : TableSchema := { table_name := "E", fields := [] }

/-- `parentStep` appends exactly one batch named after the table on
success and leaves the state untouched on failure. -/
theorem parentStep_tracks (env : Env) (cfg : Config) :
    StepTracks (parentStep env cfg) := by
  intro st t
  unfold parentStep
  dsimp only
  split
  · exact ⟨by simp, fun _ => rfl⟩
  · exact ⟨fun _ => by simp, by simp⟩

/-- `childStep` appends exactly one batch named after the table on success
and leaves the state untouched on failure. -/
theorem childStep_tracks (env : Env) (cfg : Config) :
    StepTracks (childStep env cfg) := by
  intro st t
  unfold childStep
  split
  · exact ⟨by simp, fun _ => rfl⟩
  · exact ⟨by simp, fun _ => rfl⟩
  · dsimp only
    split
    · exact ⟨by simp, fun _ => rfl⟩
    · split
      · exact ⟨by simp, fun _ => rfl⟩
      · split
        · exact ⟨by simp, fun _ => rfl⟩
        · exact ⟨fun _ => by simp, by simp⟩

/-- Running a tracking step over a table list makes the store's batch names
grow by an initial segment of the processed tables' names — the whole
segment when no error occurred. -/
theorem runSteps_names (step : RunState → TableSchema → RunState × Option PyError)
    (hs : StepTracks step) :
    ∀ (ts : List TableSchema) (st : RunState), ∃ k, k ≤ ts.length ∧
      (runSteps step st ts).1.store.map (fun e => e.name)
        = st.store.map (fun e => e.name)
            ++ (ts.map (fun t => t.table_name)).take k ∧
      ((runSteps step st ts).2 = none →
        (runSteps step st ts).1.store.map (fun e => e.name)
          = st.store.map (fun e => e.name) ++ ts.map (fun t => t.table_name)) := by
  intro ts
  induction ts with
  | nil => intro st; exact ⟨0, by simp [runSteps]⟩
  | cons t ts ih =>
    intro st
    rcases hst : step st t with ⟨st', e⟩
    cases e with
    | none =>
      have hrun : runSteps step st (t :: ts) = runSteps step st' ts := by
        simp only [runSteps, hst]
      have hname : st'.store.map (fun e => e.name)
          = st.store.map (fun e => e.name) ++ [t.table_name] := by
        have h1 := (hs st t).1
        rw [hst] at h1
        exact h1 rfl
      obtain ⟨k, hk, hnames, hall⟩ := ih st'
      refine ⟨k + 1, by simpa using Nat.succ_le_succ hk, ?_, ?_⟩
      · rw [hrun, hnames, hname]
        simp [List.take_succ_cons]
      · intro hnone
        rw [hrun] at hnone ⊢
        rw [hall hnone, hname]
        simp
    | some err =>
      have hrun : runSteps step st (t :: ts) = (st', some err) := by
        simp only [runSteps, hst]
      have hpres : st' = st := by
        have h2 := (hs st t).2
        rw [hst] at h2
        exact h2 (by simp)
      refine ⟨0, Nat.zero_le _, ?_, ?_⟩
      · rw [hrun, hpres]
        simp
      · intro hnone
        rw [hrun] at hnone
        simp at hnone

/-- Across a whole `generate_fake_data` run the store's batch names are an
initial segment of `populationOrder` — all of it when the run succeeds. -/
theorem store_names_take (env : Env) (cfg : Config) (schema : List TableSchema) :
    ∃ k, (generate_fake_data env schema cfg).1.store.map (fun e => e.name)
          = (populationOrder schema).take k ∧
      ((generate_fake_data env schema cfg).2 = none →
        (generate_fake_data env schema cfg).1.store.map (fun e => e.name)
          = populationOrder schema) := by
  rcases hp : runSteps (parentStep env cfg) initState
      (schema.filter (fun t => t.composite_primary_keys.isSome)) with ⟨st1, e1⟩
  obtain ⟨k1, hk1, hnames1, hall1⟩ :=
    runSteps_names (parentStep env cfg) (parentStep_tracks env cfg)
      (schema.filter (fun t => t.composite_primary_keys.isSome)) initState
  rw [hp] at hnames1 hall1
  dsimp only at hnames1 hall1
  cases e1 with
  | some err =>
    have hgen : generate_fake_data env schema cfg = (st1, some err) := by
      simp only [generate_fake_data, hp]
    refine ⟨k1, ?_, ?_⟩
    · rw [hgen]
      dsimp only
      rw [hnames1]
      have hlen : k1 ≤ ((schema.filter
          (fun t => t.composite_primary_keys.isSome)).map
            (fun t => t.table_name)).length := by simpa using hk1
      simp only [populationOrder]
      rw [List.take_append_of_le_length hlen]
      simp [initState]
    · rw [hgen]
      simp
  | none =>
    have hgen : generate_fake_data env schema cfg
        = runSteps (childStep env cfg) st1
            (schema.filter (fun t => t.composite_foreign_keys.isSome)) := by
      simp only [generate_fake_data, hp]
    obtain ⟨k2, hk2, hnames2, hall2⟩ :=
      runSteps_names (childStep env cfg) (childStep_tracks env cfg)
        (schema.filter (fun t => t.composite_foreign_keys.isSome)) st1
    have hst1 : st1.store.map (fun e => e.name)
        = (schema.filter (fun t => t.composite_primary_keys.isSome)).map
            (fun t => t.table_name) := by
      have h3 := hall1 rfl
      simpa [initState] using h3
    refine ⟨((schema.filter (fun t => t.composite_primary_keys.isSome)).map
        (fun t => t.table_name)).length + k2, ?_, ?_⟩
    · rw [hgen, hnames2, hst1]
      simp only [populationOrder]
      rw [List.take_append]
    · intro hnone
      rw [hgen] at hnone ⊢
      rw [hall2 hnone, hst1]
      simp only [populationOrder]

/-- A table whose name never appears among the store's batch names received
no rows. -/
theorem rowsInserted_zero (store : List Entry) (T : String)
    (h : T ∉ store.map (fun e => e.name)) : rowsInserted store T = 0 := by
  unfold rowsInserted
  have hfil : store.filter (fun e => e.name == T) = [] := by
    rw [List.filter_eq_nil_iff]
    intro e he
    simp only [beq_iff_eq]
    intro heq
    exact h (List.mem_map.mpr ⟨e, he, heq⟩)
  rw [hfil]
  rfl

/-- Claim C1: for every schema and config containing a `random_seed`, two
runs of data generation with the identical schema, config and `random_seed`
produce identical generated datasets across all tables.  REFUTED: the
`random` module and `Faker` are seeded in `Database.__init__`, but
`scipy.stats.truncnorm.rvs` draws from the process-global numpy RNG, which
is never seeded, so two runs agreeing on every seeded stream (`env0` and
`env1` share the seeded environment `se0` literally) still produce
different datasets on a schema with a numeric-distribution field. -/
theorem claim_C1_nondeterminism :
    env0.seeded = env1.seeded ∧
    cfgDet.random_seed = some 42 ∧
    (generate_fake_data env0 [tDet] cfgDet).2 = none ∧
    (generate_fake_data env1 [tDet] cfgDet).2 = none ∧
    (generate_fake_data env0 [tDet] cfgDet).1.store
      ≠ (generate_fake_data env1 [tDet] cfgDet).1.store := by
  refine ⟨rfl, rfl, ?_, ?_, ?_⟩ <;> decide

/-- Claim C2, counterexample: table `A` declares a single-column foreign
key into table `B`, yet the run populates `A` (a full committed batch)
before `B` has been populated — the code orders tables only as
parents-then-children in schema order, with no dependency analysis. -/
theorem claim_C2_cex :
    "B" ∈ refsTables tA ∧
    (generate_fake_data env0 [tA, tB] cfgAB).2 = none ∧
    (generate_fake_data env0 [tA, tB] cfgAB).1.store
      = [⟨"A", ["x"], [[Value.null]]⟩, ⟨"B", ["id"], [[Value.rat 5]]⟩] := by
  refine ⟨?_, ?_, ?_⟩ <;> decide

/-- Claim C2, amended: tables are populated in `populationOrder` — every
table whose dict has a `composite_primary_keys` key in schema order, then
every table whose dict has a `composite_foreign_keys` key in schema order;
foreign-key references play no part in the order. -/
theorem claim_C2_population_order (env : Env) (cfg : Config)
    (schema : List TableSchema) :
    ∃ k, (generate_fake_data env schema cfg).1.store.map (fun e => e.name)
          = (populationOrder schema).take k ∧
      ((generate_fake_data env schema cfg).2 = none →
        (generate_fake_data env schema cfg).1.store.map (fun e => e.name)
          = populationOrder schema) :=
  store_names_take env cfg schema

/-- Witness for `claim_C2_population_order` at a concrete schema. -/
theorem claim_C2_population_order_witness :
    ∃ k, (generate_fake_data env0 [tA, tB] cfgAB).1.store.map (fun e => e.name)
          = (populationOrder [tA, tB]).take k ∧
      ((generate_fake_data env0 [tA, tB] cfgAB).2 = none →
        (generate_fake_data env0 [tA, tB] cfgAB).1.store.map (fun e => e.name)
          = populationOrder [tA, tB]) :=
  claim_C2_population_order env0 cfgAB [tA, tB]

/-- Claim C3, counterexample: the schema `[tCycA, tCycB]` has a mutual
foreign-key cycle (`A` references `B`, `B` references `A`), yet generation
completes without any error — no `SchemaError` exists anywhere in the code
— and inserts one committed row into each table. -/
theorem claim_C3_cex :
    refsTables tCycA = ["B"] ∧ refsTables tCycB = ["A"] ∧
    (generate_fake_data env0 [tCycA, tCycB] cfgAB).2 = none ∧
    rowsInserted (generate_fake_data env0 [tCycA, tCycB] cfgAB).1.store "A" = 1 ∧
    rowsInserted (generate_fake_data env0 [tCycA, tCycB] cfgAB).1.store "B" = 1 := by
  refine ⟨?_, ?_, ?_, ?_, ?_⟩ <;> decide

/-- Claim C3, amended: `generate_fake_data` performs no cycle detection of
any kind; on the mutually-cyclic schema it runs to completion, committing
the `A` batch and then the `B` batch (the foreign-key columns are simply
filled by the value generator, here with NULL). -/
theorem claim_C3_no_cycle_detection :
    (generate_fake_data env0 [tCycA, tCycB] cfgAB).1.store
      = [⟨"A", ["x"], [[Value.null]]⟩, ⟨"B", ["b"], [[Value.null]]⟩] ∧
    (generate_fake_data env0 [tCycA, tCycB] cfgAB).2 = none := by
  refine ⟨?_, ?_⟩ <;> decide

/-- Claim C4, counterexample: table `T` (fixture `tPlain`) declares neither
a `composite_primary_keys` nor a `composite_foreign_keys` key; its
configured `num_records` is 3, yet generation completes without touching it
— zero rows are inserted, not `num_records`. -/
theorem claim_C4_cex :
    tPlain.composite_primary_keys = none ∧
    tPlain.composite_foreign_keys = none ∧
    getNumRecords cfgPlain "T" = 3 ∧
    (generate_fake_data env0 [tPlain] cfgPlain).2 = none ∧
    rowsInserted (generate_fake_data env0 [tPlain] cfgPlain).1.store "T" = 0 := by
  refine ⟨?_, ?_, ?_, ?_, ?_⟩ <;> decide

/-- Claim C4, amended: only the tables declaring a `composite_primary_keys`
or a `composite_foreign_keys` key are populated; a table declaring neither
receives zero rows; a table declaring exactly one of them receives
`num_records` rows in its phase; a table declaring both is populated in
both phases and receives `2 * num_records` rows; the per-table count
defaults to 10 when absent from the config mapping. -/
theorem claim_C4_phase_counts :
    (∀ (env : Env) (cfg : Config) (schema : List TableSchema) (T : String),
      (∀ u ∈ schema, u.table_name = T →
        u.composite_primary_keys = none ∧ u.composite_foreign_keys = none) →
      rowsInserted (generate_fake_data env schema cfg).1.store T = 0) ∧
    rowsInserted (generate_fake_data env0 [tD4] cfg4).1.store "D"
      = 2 * getNumRecords cfg4 "D" ∧
    rowsInserted (generate_fake_data env0 [tB] cfgAB).1.store "B"
      = getNumRecords cfgAB "B" ∧
    getNumRecords ⟨[("A", 7)], none⟩ "T" = 10 := by
  refine ⟨?_, by decide, by decide, by decide⟩
  intro env cfg schema T hT
  obtain ⟨k, hk, _⟩ := store_names_take env cfg schema
  apply rowsInserted_zero
  rw [hk]
  intro hmem
  have hmem2 : T ∈ populationOrder schema := List.take_subset _ _ hmem
  simp only [populationOrder, List.mem_append, List.mem_map, List.mem_filter]
    at hmem2
  rcases hmem2 with ⟨u, ⟨hu, hsome⟩, hname⟩ | ⟨u, ⟨hu, hsome⟩, hname⟩
  · rw [(hT u hu hname).1] at hsome
    simp at hsome
  · rw [(hT u hu hname).2] at hsome
    simp at hsome

/-- Witness for `claim_C4_phase_counts`: its universal part applied at a
concrete schema whose only table declares neither composite-key kind. -/
theorem claim_C4_phase_counts_witness :
    rowsInserted (generate_fake_data env0 [tPlain] cfgPlain).1.store "T" = 0 :=
  claim_C4_phase_counts.1 env0 cfgPlain [tPlain] "T" (by decide)

/-- Claim C5, counterexample: field `color` names the generator `zzz`,
which the Faker provider does not have; `generate_fake_value` silently
returns NULL (there is no `GenerationError` anywhere in the code), the
field stays in the INSERT column list, and the run commits the NULL. -/
theorem claim_C5_cex :
    fldZ.fake_data = some "zzz" ∧
    se0.fakerMethods.contains "zzz" = false ∧
    generate_fake_value env0 gs0 fldZ = (Value.null, gs0) ∧
    (generate_fake_data env0 [tT5] cfg9).2 = none ∧
    (generate_fake_data env0 [tT5] cfg9).1.store
      = [⟨"T", ["color"], [[Value.null]]⟩] := by
  refine ⟨?_, ?_, ?_, ?_, ?_⟩ <;> decide

/-- Claim C5, amended: when `fake_data` names a generator the provider does
not have (and the field is not an int-typed date field), value generation
silently returns NULL, consuming no randomness and raising nothing. -/
theorem claim_C5_silent_null (env : Env) (s : GenState) (f : FieldSchema)
    (g : String)
    (h1 : f.fake_data = some g)
    (h2 : env.seeded.fakerMethods.contains g = false)
    (h3 : isDateField f = false) :
    generate_fake_value env s f = (Value.null, s) := by
  have h2' : g ∉ env.seeded.fakerMethods := by simpa using h2
  unfold generate_fake_value
  rw [h3, h1]
  simp [h2']

/-- Witness for `claim_C5_silent_null` at the concrete `zzz` field. -/
theorem claim_C5_silent_null_witness :
    generate_fake_value env0 gs0 fldZ = (Value.null, gs0) :=
  claim_C5_silent_null env0 gs0 fldZ "zzz" (by decide) (by decide) (by decide)

/-- Claim C6, counterexample: `pid` is a `unique` single-column foreign key
into `P(id)`; the parent's tracked key set holds the single value 5, two
child rows are requested, and both committed rows carry `pid = 5` — the
draw is with replacement, `unique` is ignored, and no
`UniquenessExhaustion` (or any other) condition is surfaced. -/
theorem claim_C6_cex :
    (tC6.fields.map fun f => (f.name, f.unique, f.foreign_key))
      = [("pid", true, some ⟨"P(id)"⟩)] ∧
    (generate_fake_data env0 [tP6, tQ6, tC6] cfg6).2 = none ∧
    List.lookup "P" (generate_fake_data env0 [tP6, tQ6, tC6] cfg6).1.idrefs
      = some [("id", [Value.rat 5])] ∧
    storeSelect (generate_fake_data env0 [tP6, tQ6, tC6] cfg6).1.store "C" ["pid"]
      = [[Value.rat 5], [Value.rat 5]] := by
  refine ⟨?_, ?_, ?_, ?_⟩ <;> decide

/-- Claim C6, amended: single-column foreign-key values are drawn by
`random.choice` with replacement, regardless of the `unique` flag; a batch
larger than the parent's key set is committed in full, with repeated
values, and no exhaustion condition exists. -/
theorem claim_C6_with_replacement :
    getNumRecords cfg6 "C" = 2 ∧
    rowsInserted (generate_fake_data env0 [tP6, tQ6, tC6] cfg6).1.store "C" = 2 ∧
    (storeSelect (generate_fake_data env0 [tP6, tQ6, tC6] cfg6).1.store "C"
        ["pid"]).all (fun r => r == [Value.rat 5]) = true ∧
    (generate_fake_data env0 [tP6, tQ6, tC6] cfg6).2 = none := by
  refine ⟨?_, ?_, ?_, ?_⟩ <;> decide

/-- Claim C7, counterexample: the child's composite foreign key declares
its fields in the order `SchCode, CoCode, PlanNo`; the only parent key
tuple, read in that declared order, is `(2, 1, 3)`, but the generated child
row carries `(1, 2, 3)` — the components were assigned by the hard-coded
names `CoCode`/`SchCode`/`PlanNo` to the tuple's positions 1/2/3, so the
generated tuple matches no parent key tuple. -/
theorem claim_C7_cex :
    (generate_fake_data env0 [tP7, tC7] cfg7).2 = none ∧
    (generate_fake_data env0 [tP7, tC7] cfg7).1.store
      = [⟨"P", ["CoCode", "SchCode", "PlanNo"],
           [[Value.rat 1, Value.rat 2, Value.rat 3]]⟩,
         ⟨"C", ["SchCode", "CoCode", "PlanNo"],
           [[Value.rat 1, Value.rat 2, Value.rat 3]]⟩] ∧
    storeSelect (generate_fake_data env0 [tP7, tC7] cfg7).1.store "P"
        ["SchCode", "CoCode", "PlanNo"]
      = [[Value.rat 2, Value.rat 1, Value.rat 3]] ∧
    [Value.rat 1, Value.rat 2, Value.rat 3]
      ∉ storeSelect (generate_fake_data env0 [tP7, tC7] cfg7).1.store "P"
          ["SchCode", "CoCode", "PlanNo"] := by
  refine ⟨?_, ?_, ?_, ?_⟩ <;> decide

/-- Claim C7, amended: one parent tuple is drawn per row, but its
components are mapped onto the declared field list by the hard-coded names
`CoCode`, `SchCode`, `PlanNo` (bound to tuple positions 1, 2, 3), with
positional mapping only for other names; the generated tuple equals the
drawn parent tuple only when the declared order is compatible with that
binding, e.g. exactly `CoCode, SchCode, PlanNo`. -/
theorem claim_C7_hardcoded_mapping :
    (∀ co sch pl : Value,
      hardcodedFkMap ["CoCode", "SchCode", "PlanNo"] co sch pl = [co, sch, pl]) ∧
    (∀ co sch pl : Value,
      hardcodedFkMap ["SchCode", "CoCode", "PlanNo"] co sch pl = [sch, co, pl]) ∧
    (generate_fake_data env0 [tP7, tC7ok] cfg7).2 = none ∧
    storeSelect (generate_fake_data env0 [tP7, tC7ok] cfg7).1.store "C"
        ["CoCode", "SchCode", "PlanNo"]
      = storeSelect (generate_fake_data env0 [tP7, tC7ok] cfg7).1.store "P"
          ["CoCode", "SchCode", "PlanNo"] := by
  refine ⟨fun co sch pl => rfl, fun co sch pl => rfl, by decide, by decide⟩

/-- Claim C8, counterexample: `start_date` is a `bigint` field — an
integer-like type by the code's own `["int", "bigint"]` rounding rule — and
its name signals a date, yet `generate_fake_value` does not produce a date
encoding for it (with no distribution parameters it returns NULL): the
encoded-date branch tests `type.lower() == "int"` only. -/
theorem claim_C8_cex :
    lowerStr fldBigDate.type = "bigint" ∧
    hasSub (lowerStr fldBigDate.name) "date" = true ∧
    generate_fake_value env0 gs0 fldBigDate = (Value.null, gs0) ∧
    Value.null ≠ Value.int (encodeIntDate (env0.seeded.fakerDate 0)) := by
  refine ⟨?_, ?_, ?_, ?_⟩ <;> decide

/-- Claim C8, amended: for every field whose type lower-cases to exactly
`"int"` and whose lower-cased name contains `"date"`, the generated value
is the `1YYMMDD` integer encoding of the date drawn from the (seeded) Faker
`date_between(2000-01-01, today)` stream; 2000-01-01 encodes to 1000101 and
2025-03-27 encodes to 1250327. -/
theorem claim_C8_int_date (env : Env) (s : GenState) (f : FieldSchema)
    (today : Date)
    (h1 : lowerStr f.type = "int")
    (h2 : hasSub (lowerStr f.name) "date" = true)
    (hr : ∀ k, dateLEb ⟨2000, 1, 1⟩ (env.seeded.fakerDate k) = true ∧
               dateLEb (env.seeded.fakerDate k) today = true) :
    generate_fake_value env s f
      = (Value.int (encodeIntDate (env.seeded.fakerDate s.fakerCtr)),
         { s with fakerCtr := s.fakerCtr + 1 }) ∧
    dateLEb ⟨2000, 1, 1⟩ (env.seeded.fakerDate s.fakerCtr) = true ∧
    dateLEb (env.seeded.fakerDate s.fakerCtr) today = true ∧
    encodeIntDate ⟨2000, 1, 1⟩ = 1000101 ∧
    encodeIntDate ⟨2025, 3, 27⟩ = 1250327 := by
  have hdf : isDateField f = true := by
    unfold isDateField
    rw [h1, h2]
    decide
  refine ⟨?_, (hr s.fakerCtr).1, (hr s.fakerCtr).2, by decide, by decide⟩
  unfold generate_fake_value generate_fake_int_date
  rw [hdf]
  simp

/-- Witness for `claim_C8_int_date` at the concrete `pay_date` field with
the fixed environment (every sampled date is 2013-05-09). -/
theorem claim_C8_int_date_witness :
    generate_fake_value env0 gs0 fldDate
      = (Value.int (encodeIntDate (env0.seeded.fakerDate gs0.fakerCtr)),
         { gs0 with fakerCtr := gs0.fakerCtr + 1 }) ∧
    dateLEb ⟨2000, 1, 1⟩ (env0.seeded.fakerDate gs0.fakerCtr) = true ∧
    dateLEb (env0.seeded.fakerDate gs0.fakerCtr) ⟨2025, 10, 12⟩ = true ∧
    encodeIntDate ⟨2000, 1, 1⟩ = 1000101 ∧
    encodeIntDate ⟨2025, 3, 27⟩ = 1250327 :=
  claim_C8_int_date env0 gs0 fldDate ⟨2025, 10, 12⟩ (by decide) (by decide)
    (fun _ => ⟨rfl, rfl⟩)

/-- Claim C9, counterexample: field `x` of table `T` declares no generation
strategy at all (no `fake_data`, no distribution parameters, no foreign
key, not a date name), yet it appears in the table's INSERT column list and
the committed row holds NULL for it — a numeric-typed field without
distribution parameters is inserted as null. -/
theorem claim_C9_cex :
    (tT9.fields.map fun f =>
        (f.fake_data, f.mean, f.stddev, f.min, f.max, f.foreign_key))
      = [(none, none, none, none, none, none)] ∧
    (generate_fake_data env0 [tT9] cfg9).2 = none ∧
    (generate_fake_data env0 [tT9] cfg9).1.store
      = [⟨"T", ["x"], [[Value.null]]⟩] := by
  refine ⟨rfl, ?_, ?_⟩ <;> decide

/-- Claim C9, amended: a field with no `fake_data` key and a non-numeric
type is excluded from a parent table's INSERT column list; but a
numeric-typed field is always included, and when its distribution
parameters are incomplete its generated value is NULL, which is inserted
(the concrete run shows the committed NULL). -/
theorem claim_C9_insert_columns :
    (∀ (t : TableSchema) (f : FieldSchema),
      f.fake_data = none → numericTypes.contains (lowerStr f.type) = false →
      f ∉ t.fields.filter
        (fun f => f.fake_data.isSome || numericTypes.contains (lowerStr f.type))) ∧
    (∀ (env : Env) (s : GenState) (f : FieldSchema),
      isDateField f = false → f.fake_data = none → f.mean = none →
      generate_fake_value env s f = (Value.null, s)) ∧
    (generate_fake_data env0 [tT9] cfg9).1.store
      = [⟨"T", ["x"], [[Value.null]]⟩] := by
  refine ⟨?_, ?_, by decide⟩
  · intro t f h1 h2 hmem
    rw [List.mem_filter] at hmem
    rcases hmem with ⟨_, hp⟩
    rw [h1, h2] at hp
    simp at hp
  · intro env s f h1 h2 h3
    unfold generate_fake_value
    rw [h1, h2]
    cases hc : numericTypes.contains (lowerStr f.type) with
    | false => simp
    | true =>
      rw [h3]
      simp

/-- Witness for `claim_C9_insert_columns` at the concrete paramless numeric
field of `tT9`. -/
theorem claim_C9_insert_columns_witness :
    ({ name := "note", type := "text" } : FieldSchema)
        ∉ tT9.fields.filter
          (fun f => f.fake_data.isSome || numericTypes.contains (lowerStr f.type)) ∧
    generate_fake_value env0 gs0 { name := "x", type := "int" }
      = (Value.null, gs0) :=
  ⟨claim_C9_insert_columns.1 tT9 { name := "note", type := "text" }
      (by decide) (by decide),
   claim_C9_insert_columns.2.1 env0 gs0 { name := "x", type := "int" }
      (by decide) (by decide) (by decide)⟩

/-- Claim C10, counterexample: the schema `[tE, tF]` contains a table with
a field (`tF`), so it lies in the claim's domain, but construction raises
`sqlite3.OperationalError`, not `NameError`: the first table `tE` has no
fields, so the column loop never reads the undefined `fld`, and the
`CREATE TABLE E (...)` built for it holds no column definitions and is
rejected by SQLite at `cursor.execute`. -/
theorem claim_C10_cex :
    tE.fields = [] ∧ tF.fields ≠ [] ∧
    (database_init [tE, tF] ⟨[], none⟩).2 = some PyError.operationalError ∧
    (database_init [tE, tF] ⟨[], none⟩).2 ≠ some (PyError.nameError "fld") := by
  refine ⟨?_, ?_, ?_, ?_⟩ <;> decide

/-- Claim C10, amended: for every schema whose first table has at least one
field — in particular any schema all of whose tables have fields —
`Database` construction (which invokes `create_tables`) raises the
unhandled `NameError` from the undefined name `fld` read by the
column-building loop, and no `CREATE TABLE` is ever executed, so no table
is created and generation cannot run on such schemas.  (When the first
table is field-less, construction fails with `OperationalError` on its
column-definition-less DDL instead.) -/
theorem claim_C10_name_error (t : TableSchema) (ts : List TableSchema)
    (cfg : Config) (h : t.fields ≠ []) :
    (database_init (t :: ts) cfg).2 = some (PyError.nameError "fld") ∧
    (database_init (t :: ts) cfg).1 = [] := by
  have hf : t.fields.isEmpty = false := by
    rcases hc : t.fields with _ | ⟨f, fs⟩
    · exact absurd hc h
    · rfl
  unfold database_init create_tables
  dsimp only
  rw [hf]
  exact ⟨rfl, rfl⟩

/-- Witness for `claim_C10_name_error` at a one-table schema whose table
has a field. -/
theorem claim_C10_name_error_witness :
    (database_init [tF] ⟨[], none⟩).2 = some (PyError.nameError "fld") ∧
    (database_init [tF] ⟨[], none⟩).1 = [] :=
  claim_C10_name_error tF [] ⟨[], none⟩ (by decide)
